import Mathlib

/-!
Shallow embedding of the natural-language-to-SQL pipeline of ExpertSQL
(`src/neon_db.py` and `src/app.py`), together with theorems settling the
frozen claims about it.

Python strings are modelled through their character lists (`String.data`),
so every operation is structurally recursive and kernel-evaluable; the
relevant Python primitives (`upper`, `lstrip`, `strip`, `startswith`,
`endswith`, substring `in`, slicing) are embedded one by one.  External
effects (database introspection, model calls, query execution) are modelled
as oracle outcomes supplied in a `PipelineEnv`; every pure string
manipulation of the source is embedded directly.
-/

/-- Python's whitespace set for `str.strip` / `str.lstrip`
(space, tab, newline, carriage return, vertical tab, form feed). -/
def py_isspace (c : Char) : Bool :=
  c = ' ' || c = '\t' || c = '\n' || c = '\r' || c = '\x0b' || c = '\x0c'

/-- Python `str.upper()` on the ASCII range (the source only compares
against ASCII keywords, so only the a-z/A-Z mapping is relevant). -/
def py_upper (s : List Char) : List Char :=
  s.map Char.toUpper

/-- Python `str.lstrip()`: drop leading whitespace. -/
def py_lstrip (s : List Char) : List Char :=
  s.dropWhile py_isspace

/-- Python `str.strip()`: drop leading and trailing whitespace. -/
def py_strip (s : List Char) : List Char :=
  ((s.dropWhile py_isspace).reverse.dropWhile py_isspace).reverse

/-- Substring containment: the Python test `needle in hay`.
`hay` contains `needle` iff `needle` is a prefix of some suffix of `hay`. -/
def listContains (hay needle : List Char) : Bool :=
  (List.range (hay.length + 1)).any fun i => needle.isPrefixOf (hay.drop i)

/-- The deny list of `validate_sql` in `src/neon_db.py`
(`forbidden_keywords`), in source order. -/
def forbidden_keywords : List String :=
  ["DROP", "DELETE", "UPDATE", "INSERT", "ALTER", "TRUNCATE", "GRANT", "REVOKE"]

/-- Embedding of the deny-list membership test of `validate_sql`: the
keyword, with one space on each side, occurs as a substring of the
upper-cased query padded with one space on each side. -/
def keywordHit (query_upper : List Char) (k : String) : Bool :=
  listContains (' ' :: (query_upper ++ [' '])) (' ' :: (k.data ++ [' ']))

/-- Embedding of `validate_sql` from `src/neon_db.py` (lines 84-103): scan the deny list
in order (first hit wins), then require the statement to start with SELECT
after stripping leading whitespace; return `(accepted, reason)`. -/
def validate_sql (query : String) : Bool × String :=
  let query_upper := py_upper query.data
  match forbidden_keywords.find? (fun k => keywordHit query_upper k) with
  | some k => (false, "Query contains forbidden keyword: " ++ k)
  | none =>
    if !(("SELECT".data).isPrefixOf (py_upper (py_lstrip query_upper))) then
      (false, "Only SELECT queries are allowed")
    else
      (true, "")

/-- A Python runtime value as it appears in a database result cell.
Non-numeric payloads are carried together with their Python `str()`
rendering, which is all `execute_query` ever computes from them. -/
inductive PyValue where
  | vNone
  | vBool (b : Bool)
  | vInt (n : Int)
  /-- a Python `float`, carried with its `str()` rendering -/
  | vFloat (pyStr : String)
  | vStr (s : String)
  /-- a `uuid.UUID`, carried with its `str()` rendering -/
  | vUUID (pyStr : String)
  /-- a `bytes` value, carried with its `str()` rendering -/
  | vBytes (pyStr : String)
  /-- a `datetime.datetime`, carried with its `str()` rendering -/
  | vDatetime (pyStr : String)
deriving DecidableEq, Repr

/-- Python attribute test for the name hex on the modelled runtime values:
`float.hex`, `UUID.hex` and `bytes.hex` exist; `None`, `bool`, `int`,
`str` and `datetime` expose no hex attribute. -/
def hasattr_hex : PyValue → Bool
  | .vFloat _ => true
  | .vUUID _ => true
  | .vBytes _ => true
  | .vNone => false
  | .vBool _ => false
  | .vInt _ => false
  | .vStr _ => false
  | .vDatetime _ => false

/-- Python `str(value)` on the modelled runtime values. -/
def py_str : PyValue → String
  | .vNone => "None"
  | .vBool true => "True"
  | .vBool false => "False"
  | .vInt n => toString n
  | .vFloat s => s
  | .vStr s => s
  | .vUUID s => s
  | .vBytes s => s
  | .vDatetime s => s

/-- One result row: an ordered mapping from column name to value, as built
by `execute_query` from `row.items()`. -/
abbrev Row := List (String × PyValue)

/-- The per-cell normalization inside `execute_query`
(`src/neon_db.py` lines 74-79): a value exposing a hex attribute is
replaced by its `str()` rendering; every other value is stored unchanged. -/
def convert_cell (v : PyValue) : PyValue :=
  if hasattr_hex v then .vStr (py_str v) else v

/-- The row materialization loop of `execute_query`
(`src/neon_db.py` lines 71-82): every cell of every row is passed through
`convert_cell`, keys and row order preserved. -/
def execute_query_rows (rows : List Row) : List Row :=
  rows.map fun r => r.map fun kv => (kv.1, convert_cell kv.2)

/-- The output post-processing of `generate_sql` in `src/app.py`
(lines 124-131), on character lists: strip surrounding whitespace, drop a
leading fence opener (the 6 characters of a backtick-backtick-backtick-sql
marker), drop a trailing 3-character closing fence, strip again. -/
def clean_sql_chars (raw : List Char) : List Char :=
  let s0 := py_strip raw
  let s1 := if ("```sql".data).isPrefixOf s0 then s0.drop 6 else s0
  let s2 := if ("```".data).isSuffixOf s1 then s1.take (s1.length - 3) else s1
  py_strip s2

/-- The output post-processing of `generate_sql` as a string function. -/
def clean_sql (raw : String) : String :=
  String.mk (clean_sql_chars raw.data)

/-- Python `sep.join(items)`. -/
def py_join (sep : String) : List String → String
  | [] => ""
  | [x] => x
  | x :: y :: xs => x ++ sep ++ py_join sep (y :: xs)

/-- The deterministic fallback summary built in the exception handler of
`generate_natural_language_summary` (`src/app.py` line 96): row count plus
the comma-joined column names of the first row. -/
def summary_fallback (results : List Row) : String :=
  "Found " ++ toString results.length ++ " results with columns: " ++
    py_join ", " ((results.headD []).map Prod.fst) ++ "."

/-- Embedding of `generate_natural_language_summary` from `src/app.py`
(lines 33-96), with the model call replaced by its oracle outcome `smr`
(the prompt built from the question and the sample rows only feeds that
oracle and is not otherwise observable).  Returns the
summary together with the number of model calls made: zero on the empty
short-circuit, one otherwise (the successful call's content is stripped;
a failing call is caught and replaced by `summary_fallback`). -/
def generate_natural_language_summary (smr : Except String String)
    (results : List Row) : String × Nat :=
  if results.isEmpty then
    ("No results found for your query.", 0)
  else
    match smr with
    | .ok content => (String.mk (py_strip content.data), 1)
    | .error _ => (summary_fallback results, 1)

/-- Oracle outcomes for the external effects of one `/query` request:
the request body's `query` field, and the results of schema introspection,
the SQL-generation model call, query execution (raw driver rows, before
`execute_query`'s cell conversion) and the summary model call.
`Except.error` carries the Python exception's message. -/
structure PipelineEnv where
  question : Option String
  schemaResult : Except String Unit
  modelSqlResult : Except String String
  execResult : Except String (List Row)
  summaryModelResult : Except String String

/-- Embedding of `generate_sql` from `src/app.py` (lines 99-133) at the level of
outcomes: the schema call happens outside the `try`, so its exception
propagates with its raw message; a model-call exception is re-raised as
"Error generating SQL: " followed by the original message; on success the
model content is passed through `clean_sql`. -/
def generate_sql (env : PipelineEnv) : Except String String :=
  match env.schemaResult with
  | .error e => .error e
  | .ok _ =>
    match env.modelSqlResult with
    | .error e => .error ("Error generating SQL: " ++ e)
    | .ok content => .ok (clean_sql content)

/-- How many times each external collaborator was invoked while handling
one request. -/
structure CallTrace where
  schemaCalls : Nat
  sqlModelCalls : Nat
  execCalls : Nat
  summaryModelCalls : Nat
deriving DecidableEq, Repr

/-- The JSON response of the `/query` endpoint: a 200 success body, a 400
client-error body (with its optional `generated_sql` field), or a 500 body
from the outermost exception handler. -/
inductive Resp where
  | ok (query sql : String) (results : List Row) (summary : String)
  | clientErr (error : String) (generated_sql : Option String)
  | serverErr (error : String)
deriving DecidableEq, Repr

/-- The HTTP status code attached to each response shape in
`process_query` (`src/app.py` lines 136-178). -/
def Resp.status : Resp → Nat
  | .ok .. => 200
  | .clientErr .. => 400
  | .serverErr _ => 500

/-- Embedding of `process_query` from `src/app.py` (lines 136-178): reject a missing or
empty `query` field first; run `generate_sql` (whose exceptions reach the
outermost handler and become a 500); reject invalid SQL with a 400 carrying
the reason and the generated SQL; execution errors become a 400 carrying
the cause and the generated SQL; otherwise summarize (never fatal) and
answer 200.  Also returns the trace of external calls. -/
def process_query (env : PipelineEnv) : Resp × CallTrace :=
  match env.question with
  | none => (.clientErr "No query provided" none, ⟨0, 0, 0, 0⟩)
  | some q =>
    if q = "" then
      (.clientErr "No query provided" none, ⟨0, 0, 0, 0⟩)
    else
      match env.schemaResult with
      | .error e => (.serverErr e, ⟨1, 0, 0, 0⟩)
      | .ok _ =>
        match env.modelSqlResult with
        | .error e =>
          (.serverErr ("Error generating SQL: " ++ e), ⟨1, 1, 0, 0⟩)
        | .ok content =>
          let sql := clean_sql content
          let vr := validate_sql sql
          if vr.1 then
            match env.execResult with
            | .error e =>
              (.clientErr ("Error executing query: " ++ e) (some sql),
                ⟨1, 1, 1, 0⟩)
            | .ok rawRows =>
              let results := execute_query_rows rawRows
              let sm := generate_natural_language_summary
                env.summaryModelResult results
              (.ok q sql results sm.1, ⟨1, 1, 1, sm.2⟩)
          else
            (.clientErr ("Invalid SQL query: " ++ vr.2) (some sql),
              ⟨1, 1, 0, 0⟩)

example : validate_sql "SELECT * FROM t; DROP TABLE t" =
    (false, "Query contains forbidden keyword: DROP") := by decide
example : validate_sql "SELECT 1;DROP TABLE t" = (true, "") := by decide
example : validate_sql "SELECT dropped_at FROM t" = (true, "") := by decide
example : validate_sql "DELETE FROM x" =
    (false, "Query contains forbidden keyword: DELETE") := by decide
example : validate_sql "" = (false, "Only SELECT queries are allowed") := by decide
example : validate_sql "  select name from customers" = (true, "") := by decide

/-- Characters that can be part of an SQL identifier (letters, digits,
underscore); anything else is a whitespace or punctuation boundary. -/
def isWordChar (c : Char) : Bool :=
  c.isAlphanum || c = '_'

/-- Modelled from the spec: a case-insensitive occurrence of `kw` in `s`
as a standalone token bounded on each side by the start or end of the
statement, whitespace, or punctuation (any non-identifier character).
This is the boundary notion the spec demands of the deny-list scan; it is
compared against the source implementation `keywordHit`. -/
def spec_standalone_token (s kw : String) : Bool :=
  let hay := py_upper s.data
  let k := py_upper kw.data
  (List.range (hay.length + 1)).any fun i =>
    k.isPrefixOf (hay.drop i)
    && (decide (i = 0) || !(isWordChar ((hay.take i).getLastD ' ')))
    && (decide (hay.length ≤ i + k.length) || !(isWordChar (hay.getD (i + k.length) ' ')))

example : spec_standalone_token "SELECT * FROM t; DROP TABLE t" "DROP" = true := by decide
example : spec_standalone_token "SELECT 1;DROP TABLE t" "DROP" = true := by decide
example : spec_standalone_token "SELECT dropped_at FROM t" "DROP" = false := by decide

/-- Helper: the two rejection reasons of `validate_sql` have lengths 34 + k
and 31, so the keyword reason is never empty. -/
theorem kw_reason_ne_empty (k : String) :
    "Query contains forbidden keyword: " ++ k ≠ "" := by
  intro h
  have hlen := congrArg String.length h
  rw [String.length_append] at hlen
  have h34 : ("Query contains forbidden keyword: " : String).length = 34 := rfl
  have h0 : ("" : String).length = 0 := rfl
  omega

/-- Helper: the keyword rejection reason never coincides with the
statement-type rejection reason of `validate_sql`. -/
theorem kw_reason_ne_select (k : String) :
    "Query contains forbidden keyword: " ++ k ≠ "Only SELECT queries are allowed" := by
  intro h
  have hlen := congrArg String.length h
  rw [String.length_append] at hlen
  have h34 : ("Query contains forbidden keyword: " : String).length = 34 := rfl
  have h31 : ("Only SELECT queries are allowed" : String).length = 31 := rfl
  omega

/-- Helper: value of `validate_sql` when the deny-list scan finds a hit. -/
theorem validate_sql_of_find_some {query k : String}
    (hf : forbidden_keywords.find? (fun j => keywordHit (py_upper query.data) j) = some k) :
    validate_sql query = (false, "Query contains forbidden keyword: " ++ k) := by
  simp only [validate_sql, hf]

/-- Helper: value of `validate_sql` when the deny-list scan finds no hit. -/
theorem validate_sql_of_find_none {query : String}
    (hf : forbidden_keywords.find? (fun j => keywordHit (py_upper query.data) j) = none) :
    validate_sql query =
      if !(("SELECT".data).isPrefixOf (py_upper (py_lstrip (py_upper query.data)))) then
        (false, "Only SELECT queries are allowed")
      else
        (true, "") := by
  simp only [validate_sql, hf]

/-- C1 (amended): the deny-list scan of `validate_sql` fires exactly on
occurrences of a forbidden keyword bounded by a space character on each
side (the statement being padded with one space at either end): whenever
some forbidden keyword has such a space-bounded occurrence the statement
is rejected, and when no forbidden keyword has one the statement is never
rejected with a keyword reason — in particular a keyword occurring only
inside a longer identifier does not trigger a rejection. -/
theorem C1_denylist_space_bounded (query : String) :
    ((∃ k ∈ forbidden_keywords, keywordHit (py_upper query.data) k = true) →
      (validate_sql query).1 = false) ∧
    ((∀ k ∈ forbidden_keywords, keywordHit (py_upper query.data) k = false) →
      validate_sql query = (true, "") ∨
        validate_sql query = (false, "Only SELECT queries are allowed")) := by
  rcases hf : forbidden_keywords.find? (fun j => keywordHit (py_upper query.data) j)
    with _ | k
  · constructor
    · rintro ⟨k, hkmem, hk⟩
      have := List.find?_eq_none.mp hf k hkmem
      simp [hk] at this
    · intro _
      rw [validate_sql_of_find_none hf]
      by_cases hs :
          ("SELECT".data).isPrefixOf (py_upper (py_lstrip (py_upper query.data))) = true
      · left
        simp [hs]
      · right
        simp [hs]
  · constructor
    · intro _
      rw [validate_sql_of_find_some hf]
    · intro hall
      have hk := List.find?_some hf
      have hmem := List.mem_of_find?_eq_some hf
      rw [hall k hmem] at hk
      cases hk

/-- C1 witness: a statement with a space-bounded DROP is rejected, and the
identifier `dropped_at` alone does not lead to a keyword rejection. -/
theorem C1_denylist_space_bounded_witness :
    (validate_sql "SELECT * FROM t; DROP TABLE t").1 = false ∧
    (validate_sql "SELECT dropped_at FROM t" = (true, "") ∨
      validate_sql "SELECT dropped_at FROM t" =
        (false, "Only SELECT queries are allowed")) :=
  ⟨(C1_denylist_space_bounded "SELECT * FROM t; DROP TABLE t").1
      ⟨"DROP", by decide, by decide⟩,
    (C1_denylist_space_bounded "SELECT dropped_at FROM t").2 (by decide)⟩

/-- C1 counterexample: in `SELECT 1;DROP TABLE t` the keyword DROP occurs
as a standalone token bounded by punctuation (a semicolon) and whitespace,
yet `validate_sql` accepts the statement, because its scan requires a
space on both sides of the keyword. -/
theorem C1_counterexample_punctuation_boundary :
    "DROP" ∈ forbidden_keywords ∧
    spec_standalone_token "SELECT 1;DROP TABLE t" "DROP" = true ∧
    validate_sql "SELECT 1;DROP TABLE t" = (true, "") := by decide

/-- C2 (amended): `validate_sql` applies the deny-list scan first and the
statement-type gate second, first failure winning: whenever any forbidden
keyword has a space-bounded occurrence, the returned reason is the
keyword reason — never the statement-type reason — even if the statement
does not begin with SELECT; the statement-type reason is returned exactly
when no keyword fires and the trimmed upper-cased statement does not
start with SELECT. -/
theorem C2_denylist_scan_first (query : String) :
    ((∃ k ∈ forbidden_keywords, keywordHit (py_upper query.data) k = true) →
      (validate_sql query).1 = false ∧
      (∃ k ∈ forbidden_keywords,
        (validate_sql query).2 = "Query contains forbidden keyword: " ++ k) ∧
      (validate_sql query).2 ≠ "Only SELECT queries are allowed") ∧
    ((∀ k ∈ forbidden_keywords, keywordHit (py_upper query.data) k = false) →
      ("SELECT".data).isPrefixOf (py_upper (py_lstrip (py_upper query.data))) = false →
      validate_sql query = (false, "Only SELECT queries are allowed")) := by
  rcases hf : forbidden_keywords.find? (fun j => keywordHit (py_upper query.data) j)
    with _ | k
  · constructor
    · rintro ⟨k, hkmem, hk⟩
      have := List.find?_eq_none.mp hf k hkmem
      simp [hk] at this
    · intro _ hs
      rw [validate_sql_of_find_none hf, hs]
      rfl
  · constructor
    · intro _
      rw [validate_sql_of_find_some hf]
      exact ⟨rfl, ⟨k, List.mem_of_find?_eq_some hf, rfl⟩, kw_reason_ne_select k⟩
    · intro hall
      have hk := List.find?_some hf
      have hmem := List.mem_of_find?_eq_some hf
      rw [hall k hmem] at hk
      cases hk

/-- C2 witness: `DELETE FROM x` does not begin with SELECT yet is rejected
with the keyword reason, and `INSERT INTO y VALUES (1)` likewise. -/
theorem C2_denylist_scan_first_witness :
    (validate_sql "DELETE FROM x").1 = false ∧
    (validate_sql "DELETE FROM x").2 ≠ "Only SELECT queries are allowed" :=
  ⟨((C2_denylist_scan_first "DELETE FROM x").1 ⟨"DELETE", by decide, by decide⟩).1,
    ((C2_denylist_scan_first "DELETE FROM x").1 ⟨"DELETE", by decide, by decide⟩).2.2⟩

/-- C2 counterexample: `DELETE FROM x` does not begin with SELECT (so the
claim predicts the statement-type reason), but `validate_sql` returns the
deny-list reason, because the deny-list scan runs first. -/
theorem C2_counterexample_order :
    ("SELECT".data).isPrefixOf (py_upper (py_lstrip (py_upper "DELETE FROM x".data))) = false ∧
    validate_sql "DELETE FROM x" =
      (false, "Query contains forbidden keyword: DELETE") ∧
    "Query contains forbidden keyword: DELETE" ≠ "only read statements are permitted" ∧
    "Query contains forbidden keyword: DELETE" ≠ "Only SELECT queries are allowed" := by
  decide

/-- Helper: value of `generate_natural_language_summary` when rows are
non-empty and the model call fails. -/
theorem gnls_error_eq (e : String) (results : List Row) (h : results ≠ []) :
    generate_natural_language_summary (Except.error e) results =
      (summary_fallback results, 1) := by
  cases results with
  | nil => exact absurd rfl h
  | cons a l => rfl

/-- C3 (amended): with a non-empty question, a validation rejection or an
execution failure is answered with status 400, but a schema-introspection
failure or a model-call failure inside `generate_sql` escapes to the
outermost handler and is answered with status 500 (the former with its raw
message, the latter wrapped); empty model content is not a generation
failure — it flows into validation, which rejects it with a 400. -/
theorem C3_error_status_mapping (env : PipelineEnv) (q : String)
    (hq : env.question = some q) (hne : q ≠ "") :
    (∀ e, env.schemaResult = Except.error e →
      (process_query env).1 = Resp.serverErr e ∧
      (process_query env).1.status = 500) ∧
    (∀ e, env.schemaResult = Except.ok () → env.modelSqlResult = Except.error e →
      (process_query env).1 = Resp.serverErr ("Error generating SQL: " ++ e) ∧
      (process_query env).1.status = 500) ∧
    (∀ content, env.schemaResult = Except.ok () →
      env.modelSqlResult = Except.ok content →
      (validate_sql (clean_sql content)).1 = false →
      (process_query env).1.status = 400) ∧
    (∀ content e, env.schemaResult = Except.ok () →
      env.modelSqlResult = Except.ok content →
      (validate_sql (clean_sql content)).1 = true →
      env.execResult = Except.error e →
      (process_query env).1.status = 400) ∧
    (env.schemaResult = Except.ok () → env.modelSqlResult = Except.ok "" →
      (process_query env).1.status = 400) := by
  obtain ⟨qf, sr, mr, er, smr⟩ := env
  simp only at hq
  subst hq
  refine ⟨?_, ?_, ?_, ?_, ?_⟩
  · intro e he
    simp only at he
    subst he
    exact ⟨by simp [process_query, hne], by simp [process_query, hne, Resp.status]⟩
  · intro e hs hm
    simp only at hs hm
    subst hs; subst hm
    exact ⟨by simp [process_query, hne], by simp [process_query, hne, Resp.status]⟩
  · intro content hs hm hv
    simp only at hs hm
    subst hs; subst hm
    simp [process_query, hne, hv, Resp.status]
  · intro content e hs hm hv he
    simp only at hs hm he
    subst hs; subst hm; subst he
    simp [process_query, hne, hv, Resp.status]
  · intro hs hm
    simp only at hs hm
    subst hs; subst hm
    have hv : (validate_sql (clean_sql "")).1 = false := by decide
    simp [process_query, hne, hv, Resp.status]

/-- The oracle environment of a request whose schema introspection fails. -/
def envSchemaFail : PipelineEnv :=
  ⟨some "How many customers do we have?", Except.error "connection refused",
    Except.ok "SELECT 1", Except.ok [], Except.ok "a summary"⟩

/-- C3 witness: the schema-failure and validation-rejection conclusions at
concrete environments. -/
theorem C3_error_status_mapping_witness :
    (process_query envSchemaFail).1 = Resp.serverErr "connection refused" :=
  ((C3_error_status_mapping envSchemaFail "How many customers do we have?"
    rfl (by decide)).1 "connection refused" rfl).1

/-- C3 counterexample: a schema-introspection failure — a member of the
taxonomy other than SummaryDegraded — is answered with status 500, not a
400-class response, because `get_database_schema` is called outside the
try block of `generate_sql` and its exception reaches the outermost
handler of `process_query`. -/
theorem C3_counterexample_schema_failure_500 :
    (process_query envSchemaFail).1.status = 500 ∧
    (process_query envSchemaFail).1.status ≠ 400 := by decide

/-- C4: `validate_sql` is a total function whose result is either accepted
with an empty reason or rejected with a non-empty reason; and whenever it
rejects the generated statement, `process_query` answers 400 with the
generated SQL attached, an error message containing the rejection reason,
and zero executor calls. -/
theorem C4_rejections_never_raise :
    (∀ query : String,
      ((validate_sql query).1 = true ∧ (validate_sql query).2 = "") ∨
      ((validate_sql query).1 = false ∧ (validate_sql query).2 ≠ "")) ∧
    (∀ (env : PipelineEnv) (q content : String),
      env.question = some q → q ≠ "" →
      env.schemaResult = Except.ok () → env.modelSqlResult = Except.ok content →
      (validate_sql (clean_sql content)).1 = false →
      (process_query env).1 =
        Resp.clientErr ("Invalid SQL query: " ++ (validate_sql (clean_sql content)).2)
          (some (clean_sql content)) ∧
      (process_query env).1.status = 400 ∧
      (process_query env).2.execCalls = 0 ∧
      (∃ pre suf, "Invalid SQL query: " ++ (validate_sql (clean_sql content)).2 =
        pre ++ (validate_sql (clean_sql content)).2 ++ suf)) := by
  constructor
  · intro query
    rcases hf : forbidden_keywords.find? (fun j => keywordHit (py_upper query.data) j)
      with _ | k
    · rw [validate_sql_of_find_none hf]
      by_cases hs :
          ("SELECT".data).isPrefixOf (py_upper (py_lstrip (py_upper query.data))) = true
      · left
        simp [hs]
      · right
        simp only [Bool.not_eq_true] at hs
        simp [hs]
    · rw [validate_sql_of_find_some hf]
      exact Or.inr ⟨rfl, kw_reason_ne_empty k⟩
  · intro env q content hq hne hs hm hv
    obtain ⟨qf, sr, mr, er, smr⟩ := env
    simp only at hq hs hm
    subst hq; subst hs; subst hm
    refine ⟨by simp [process_query, hne, hv], by simp [process_query, hne, hv, Resp.status],
      by simp [process_query, hne, hv], ⟨"Invalid SQL query: ", "", ?_⟩⟩
    rw [String.append_empty]

/-- The oracle environment of a request whose generated SQL is rejected. -/
def envRejected : PipelineEnv :=
  ⟨some "delete everything", Except.ok (), Except.ok "DELETE FROM x",
    Except.ok [], Except.error "not reached"⟩

/-- C4 witness: on a rejected statement the response is the 400 body with
the reason and the generated SQL, and the executor is never invoked. -/
theorem C4_rejections_never_raise_witness :
    (process_query envRejected).1 =
      Resp.clientErr "Invalid SQL query: Query contains forbidden keyword: DELETE"
        (some "DELETE FROM x") ∧
    (process_query envRejected).1.status = 400 ∧
    (process_query envRejected).2.execCalls = 0 := by
  have h := C4_rejections_never_raise.2 envRejected "delete everything" "DELETE FROM x"
    rfl (by decide) rfl rfl (by decide)
  exact ⟨by rw [h.1]; decide, h.2.1, h.2.2.1⟩

/-- C6: a missing or empty question field is answered immediately with the
400 body carrying "No query provided", before any external call: the trace
records zero schema, model, executor and summary invocations. -/
theorem C6_no_query_provided (env : PipelineEnv)
    (h : env.question = none ∨ env.question = some "") :
    process_query env = (Resp.clientErr "No query provided" none, ⟨0, 0, 0, 0⟩) ∧
    (process_query env).1.status = 400 := by
  rcases h with h | h <;>
    exact ⟨by simp [process_query, h], by simp [process_query, h, Resp.status]⟩

/-- C6 witness: the conclusion at a concrete environment whose question is
absent and whose every oracle is failing. -/
theorem C6_no_query_provided_witness :
    process_query ⟨none, Except.error "down", Except.error "down",
        Except.error "down", Except.error "down"⟩ =
      (Resp.clientErr "No query provided" none, ⟨0, 0, 0, 0⟩) :=
  (C6_no_query_provided _ (Or.inl rfl)).1

/-- C7: on an empty result sequence the summary generator short-circuits
to the literal fallback message, whatever the summary-model oracle would
answer, and the trace records zero model calls. -/
theorem C7_empty_results_literal (smr : Except String String) :
    generate_natural_language_summary smr [] =
      ("No results found for your query.", 0) :=
  rfl

/-- C8: on a non-empty result sequence whose summary-model call fails, the
summary generator returns the deterministic template built from the exact
row count and the column names of the first row, with exactly the one
(failed) model call and no further one; and the pipeline still answers the
request with the 200 success response carrying that fallback summary. -/
theorem C8_fallback_summary :
    (∀ (e : String) (results : List Row), results ≠ [] →
      generate_natural_language_summary (Except.error e) results =
        ("Found " ++ toString results.length ++ " results with columns: " ++
          py_join ", " ((results.headD []).map Prod.fst) ++ ".", 1)) ∧
    (∀ (env : PipelineEnv) (q content e : String) (rawRows : List Row),
      env.question = some q → q ≠ "" →
      env.schemaResult = Except.ok () → env.modelSqlResult = Except.ok content →
      (validate_sql (clean_sql content)).1 = true →
      env.execResult = Except.ok rawRows →
      env.summaryModelResult = Except.error e →
      execute_query_rows rawRows ≠ [] →
      (process_query env).1 =
        Resp.ok q (clean_sql content) (execute_query_rows rawRows)
          (summary_fallback (execute_query_rows rawRows)) ∧
      (process_query env).1.status = 200 ∧
      (process_query env).2.summaryModelCalls = 1) := by
  constructor
  · intro e results h
    rw [gnls_error_eq e results h]
    rfl
  · intro env q content e rawRows hq hne hs hm hv he hsm hrows
    obtain ⟨qf, sr, mr, er, smr⟩ := env
    simp only at hq hs hm he hsm
    subst hq; subst hs; subst hm; subst he; subst hsm
    refine ⟨?_, ?_, ?_⟩ <;>
      simp [process_query, hne, hv, gnls_error_eq e _ hrows, Resp.status]

/-- The oracle environment of a successful request whose summary-model
call fails. -/
def envSummaryFail : PipelineEnv :=
  ⟨some "how many customers", Except.ok (), Except.ok "SELECT * FROM customers",
    Except.ok [[("id", PyValue.vInt 1)], [("id", PyValue.vInt 2)]],
    Except.error "rate limit"⟩

/-- C8 witness: the fallback template and the 200 response at a concrete
two-row environment. -/
theorem C8_fallback_summary_witness :
    generate_natural_language_summary (Except.error "rate limit")
        [[("id", PyValue.vInt 1)], [("id", PyValue.vInt 2)]] =
      ("Found 2 results with columns: id.", 1) ∧
    (process_query envSummaryFail).1.status = 200 ∧
    (process_query envSummaryFail).2.summaryModelCalls = 1 := by
  have h1 := C8_fallback_summary.1 "rate limit"
    [[("id", PyValue.vInt 1)], [("id", PyValue.vInt 2)]] (by decide)
  have h2 := C8_fallback_summary.2 envSummaryFail "how many customers"
    "SELECT * FROM customers" "rate limit"
    [[("id", PyValue.vInt 1)], [("id", PyValue.vInt 2)]]
    rfl (by decide) rfl rfl (by decide) rfl rfl (by decide)
  refine ⟨?_, h2.2.1, h2.2.2⟩
  rw [h1]
  decide

/-- C9: the output post-processing of `generate_sql` is the identity on
already-clean input: a string equal to its own whitespace-stripped form
that neither starts with an opening code fence nor ends with a closing
fence is returned unchanged by `clean_sql`. -/
theorem C9_clean_sql_identity (s : String)
    (h1 : py_strip s.data = s.data)
    (h2 : ("```sql".data).isPrefixOf s.data = false)
    (h3 : ("```".data).isSuffixOf s.data = false) :
    clean_sql s = s := by
  simp only [clean_sql, clean_sql_chars, h1, h2, h3, Bool.false_eq_true,
    if_false]

/-- C9 witness: a clean SELECT statement is returned unchanged. -/
theorem C9_clean_sql_identity_witness :
    clean_sql "SELECT * FROM customers" = "SELECT * FROM customers" :=
  C9_clean_sql_identity "SELECT * FROM customers" (by decide) (by decide)
    (by decide)

/-- C5 (amended): the cell normalization of `execute_query` converts
exactly the values exposing a hex attribute (UUIDs, bytes, floats) to
their `str()` rendering; every other value — including a datetime, ISO or
not — passes through unchanged, and there is no sentinel placeholder path:
each cell is either kept as is or stringified, never replaced. -/
theorem C5_hex_only_conversion (k s : String) :
    execute_query_rows [[(k, PyValue.vUUID s)]] = [[(k, PyValue.vStr s)]] ∧
    execute_query_rows [[(k, PyValue.vBytes s)]] = [[(k, PyValue.vStr s)]] ∧
    execute_query_rows [[(k, PyValue.vFloat s)]] = [[(k, PyValue.vStr s)]] ∧
    execute_query_rows [[(k, PyValue.vDatetime s)]] = [[(k, PyValue.vDatetime s)]] ∧
    (∀ v : PyValue, convert_cell v = v ∨ convert_cell v = PyValue.vStr (py_str v)) := by
  refine ⟨rfl, rfl, rfl, rfl, ?_⟩
  intro v
  cases v <;> first | exact Or.inl rfl | exact Or.inr rfl

/-- C5 counterexample: a timestamp cell (a datetime value, which exposes
no hex attribute) is not converted to its string form by `execute_query`;
it is passed through as is, and no sentinel placeholder is ever
substituted for it. -/
theorem C5_counterexample_datetime_not_stringified :
    execute_query_rows [[("created_at", PyValue.vDatetime "2024-01-02 03:04:05.123456")]] =
      [[("created_at", PyValue.vDatetime "2024-01-02 03:04:05.123456")]] ∧
    PyValue.vDatetime "2024-01-02 03:04:05.123456" ≠
      PyValue.vStr "2024-01-02 03:04:05.123456" ∧
    PyValue.vDatetime "2024-01-02 03:04:05.123456" ≠ PyValue.vStr "[complex data]" := by
  decide

/-- C10: every float-valued cell is stringified by `execute_query` (a
Python float exposes a hex attribute), so no float value survives into
the returned rows: the public result representation carries no number of
float type, only its string rendering. -/
theorem C10_floats_stringified (rows : List Row) :
    (∀ r ∈ execute_query_rows rows, ∀ kv ∈ r, ∀ s : String,
      kv.2 ≠ PyValue.vFloat s) ∧
    (∀ s : String, convert_cell (PyValue.vFloat s) = PyValue.vStr s) := by
  constructor
  · intro r hr kv hkv s
    obtain ⟨r0, _, rfl⟩ := List.mem_map.mp hr
    obtain ⟨kv0, _, rfl⟩ := List.mem_map.mp hkv
    cases h2 : kv0.2 <;> simp [convert_cell, hasattr_hex, py_str, h2]
  · intro s
    rfl

/-- C10 witness: a concrete float cell does not appear as a float in the
converted row. -/
theorem C10_floats_stringified_witness :
    ("price", PyValue.vFloat "19.99") ∉
      (execute_query_rows [[("price", PyValue.vFloat "19.99")]]).headD [] := by
  intro hmem
  exact (C10_floats_stringified [[("price", PyValue.vFloat "19.99")]]).1
    ((execute_query_rows [[("price", PyValue.vFloat "19.99")]]).headD [])
    (by decide) ("price", PyValue.vFloat "19.99") hmem "19.99" rfl
